import Mathlib

/-
Verification of the instrumentation and autonomous-agent subsystem of
tools/eval-server.py.  The Python file serves the game build and appends a
JavaScript instrumentation bundle (TEST_HOOKS) to /src/main.js; the bundle
installs the test hook surface, the loop supervisor and the autonomous
combat agent.  The definitions below are a shallow embedding of that
JavaScript (and of the Python request handler), with JS numbers modelled as
exact reals, JS objects that may be null/undefined modelled as Option, and
a thrown JS exception modelled as Except.error.
-/

namespace RetroFury

open Real

set_option maxRecDepth 8000

/-- Game-state enumeration; the bundle references GameState.LEVEL_INTRO,
PLAYING, LOBBY and MP_PLAYING. -/
inductive GState where
  | levelIntro
  | playing
  | lobby
  | mpPlaying
  deriving DecidableEq, Repr

/-- Local player object: `player.pos.x`, `player.pos.y`, `player.angle`,
`player.health`, `player.alive` (pos flattened to two fields). -/
structure Player where
  posX : ℝ
  posY : ℝ
  angle : ℝ
  health : ℝ
  alive : Bool

/-- Remote player snapshot `mpState.remotePlayer`: position and alive flag.
`rp.pos` is an object reference, so it is truthy whenever the snapshot
exists; we model the position as always present in the snapshot. -/
structure RemotePlayer where
  posX : ℝ
  posY : ℝ
  alive : Bool

/-- The multiplayer-state singleton `mpState` (fields read by the bundle). -/
structure MpSt where
  remotePlayer : Option RemotePlayer
  localTier : ℤ
  remoteTier : ℤ
  winnerId : Option String
  localId : Option String
  matchTime : ℝ

/-- The lobby UI object `lobbyScreen` (fields read by the hook surface). -/
structure LobbyScreen where
  state : String
  roomCode : String

/-- The human input subsystem singleton `input`: the input-state object the
human input path populates (key set, mouse deltas, firing flag) together
with its pointer-lock query. -/
structure InputSub where
  pointerLocked : Bool
  keys : List String
  mouseDX : ℝ
  mouseDY : ℝ
  firing : Bool

/-- The canvas element `document.getElementById('game-canvas')`; its
`toDataURL('image/png')` result is modelled as the field `pngData`. -/
structure Canvas where
  pngData : String

/-- A thrown JS error: `e.message` and `e.stack`. -/
structure JsError where
  message : String
  stack : String

/-- The window/global state visible to the injected bundle.  Objects that
may not exist yet (null / undefined globals) are Options. -/
structure Win where
  gameState : GState
  currentLevelIndex : ℤ
  player : Option Player
  mpMap : Bool
  mpPalette : Bool
  mpState : Option MpSt
  lobbyScreen : Option LobbyScreen
  inputSub : Option InputSub
  canvas : Option Canvas
  autoP1Active : Bool
  autoP1Tick : ℕ
  loopError : Option String

/-- The network message `{type: 'input', keys, mouseDX, mouseDY, fire, dt}`
sent by the agent via networkManager.send. -/
structure InputMsg where
  type : String
  keys : List String
  mouseDX : ℝ
  mouseDY : ℝ
  fire : Bool
  dt : ℝ

/-- Observable per-frame effects of one updateMultiplayer call that are not
part of the window state: the network message sent (if any) and the input
object handed to weaponSystem.update (the agent passes the real `input`
singleton there, line 190 of the source). -/
structure FrameFx where
  sent : Option InputMsg
  weaponSystemInput : Option InputSub

/-- One HTTP response of the eval server. -/
structure HttpResponse where
  status : ℕ
  headers : List (String × String)
  body : List ℕ

/-- Snapshot returned by window._test.getState(). -/
structure StateSnap where
  gameState : GState
  currentLevelIndex : ℤ
  playerHP : Option ℝ
  hasPlayer : Bool
  hasMpMap : Bool
  hasMpPalette : Bool
  loopError : Option String

/-- Snapshot returned by window._getMpStatus(). -/
structure MpStatus where
  gameState : GState
  localTier : ℤ
  remoteTier : ℤ
  winnerId : Option String
  localId : Option String
  matchTime : ℝ
  playerAlive : Bool
  playerHP : ℝ
  playerX : ℝ
  playerY : ℝ
  playerAngle : ℝ
  remoteAlive : Bool
  remoteX : ℝ
  remoteY : ℝ
  autoP1Active : Bool
  autoP1Tick : ℕ
  loopError : Option String

/-- JS truncating integer conversion (the rounding used by the JS `%`
remainder): round toward zero. -/
noncomputable def jsTrunc (r : ℝ) : ℤ :=
  if r < 0 then ⌈r⌉ else ⌊r⌋

/-- The JS `%` remainder on numbers: `a % m = a - m * trunc (a / m)`; its
sign follows the dividend. -/
noncomputable def jsMod (a m : ℝ) : ℝ :=
  a - m * jsTrunc (a / m)

/-- Line 122 of the source:
`player.angle = ((player.angle % (2*PI)) + 3*PI) % (2*PI) - PI`. -/
noncomputable def normalizeAngle (a : ℝ) : ℝ :=
  jsMod (jsMod a (2 * π) + 3 * π) (2 * π) - π

/-- Lines 147-148 (and 162-163): the two while loops
`while (d > PI) d -= 2*PI; while (d < -PI) d += 2*PI`.  Both call sites
feed a difference of an atan2 value (range contained in (-π, π]) and a
normalized angle (range [-π, π)), so the difference lies in (-2π, 2π] and
each loop body executes at most once; one conditional step per loop is
therefore the exact embedding. -/
noncomputable def wrapAngle (d : ℝ) : ℝ :=
  if d > π then d - 2 * π else if d < -π then d + 2 * π else d

/-- JS Math.atan2(y, x). -/
noncomputable def atan2 (y x : ℝ) : ℝ :=
  if 0 < x then Real.arctan (y / x)
  else if x < 0 then
    (if 0 ≤ y then Real.arctan (y / x) + π else Real.arctan (y / x) - π)
  else if 0 < y then π / 2
  else if y < 0 then -(π / 2)
  else 0

/-- Lines 137-138: the wandering fallback target
`(16 + sin(tick*0.01)*5, 16 + cos(tick*0.01)*5)`. -/
noncomputable def wanderTarget (tick : ℕ) : ℝ × ℝ :=
  (16 + Real.sin (tick * 0.01) * 5, 16 + Real.cos (tick * 0.01) * 5)

/-- Lines 124-139: navigation target selection.  `inOpenArea` is the fixed
rectangle test `myY > 6 && myX > 8 && myX < 24`; in nav phase the target is
the fixed waypoint (16, 12); otherwise pursue a live remote player, else
wander. -/
noncomputable def navTarget (rp : Option RemotePlayer) (tick : ℕ)
    (myX myY : ℝ) : ℝ × ℝ :=
  if ¬(myY > 6 ∧ myX > 8 ∧ myX < 24) then (16, 12)
  else
    match rp with
    | some r => if r.alive = true then (r.posX, r.posY) else wanderTarget tick
    | none => wanderTarget tick

/-- Line 150: `mouseDX = Math.max(-300, Math.min(300, angleDiff / 0.003))`. -/
noncomputable def steerMouseDX (angleDiff : ℝ) : ℝ :=
  max (-300) (min 300 (angleDiff / 0.003))

/-- Line 145: the source's `targetAngle` temporary, the bearing from the
player's start-of-frame position to the navigation target. -/
noncomputable def targetAngleOf (rp : Option RemotePlayer) (tick : ℕ)
    (myX myY : ℝ) : ℝ :=
  atan2 ((navTarget rp tick myX myY).2 - myY) ((navTarget rp tick myX myY).1 - myX)

/-- Lines 146-148: the source's `angleDiff` temporary, the shortest signed
angular difference between the target bearing and the normalized facing. -/
noncomputable def angleDiffOf (rp : Option RemotePlayer) (tick : ℕ)
    (myX myY angle0 : ℝ) : ℝ :=
  wrapAngle (targetAngleOf rp tick myX myY - angle0)

/-- Lines 152-155: always push KeyW; strafe KeyA during ticks 0-19 of each
80-tick cycle and KeyD during ticks 40-59. -/
def strafeKeys (tick : ℕ) : List String :=
  "KeyW" ::
    (if tick % 80 < 20 then ["KeyA"]
     else if 40 ≤ tick % 80 ∧ tick % 80 < 60 then ["KeyD"] else [])

/-- Lines 157-165: the fire gate.  Fire only when the remote snapshot
exists and is alive, the wrapped bearing difference has magnitude below
0.44 and the distance is below 20. -/
noncomputable def fireDecision (rp : Option RemotePlayer)
    (myX myY angle0 : ℝ) : Bool :=
  match rp with
  | some r =>
      if r.alive = true then
        (if |wrapAngle (atan2 (r.posY - myY) (r.posX - myX) - angle0)| < 0.44 ∧
            Real.sqrt ((r.posX - myX) ^ 2 + (r.posY - myY) ^ 2) < 20
         then true else false)
      else false
  | none => false

/-- Lines 129-175: the synthetic input assembled by the agent for one frame
(keys, mouseDX, fire) and sent as `{type:'input', ...}`.  `angle0` is the
already-normalized player angle, `tick` the incremented tick counter. -/
noncomputable def agentSyntheticInput (rp : Option RemotePlayer) (tick : ℕ)
    (myX myY angle0 dt : ℝ) : InputMsg :=
  let target := navTarget rp tick myX myY
  let dx := target.1 - myX
  let dy := target.2 - myY
  let dist := Real.sqrt (dx * dx + dy * dy)
  let targetAngle := atan2 dy dx
  let angleDiff := wrapAngle (targetAngle - angle0)
  { type := "input"
    keys := strafeKeys tick
    mouseDX := steerMouseDX angleDiff
    mouseDY := 0
    fire := fireDecision rp myX myY angle0
    dt := dt }

/-- Lines 178-187: client-side prediction.  Guarded by
`player && player.alive && mpMap`; moves along the (normalized) facing when
KeyW is among the synthetic keys, then adds `mouseDX * 0.003` to the
angle.  When the guard fails the angle keeps the value written by the
normalization on line 122 and the position is untouched. -/
noncomputable def predictPlayer (mpMap : Bool) (p : Player) (msg : InputMsg)
    (angle0 dt : ℝ) : Player :=
  if p.alive = true ∧ mpMap = true then
    { p with
      posX := if "KeyW" ∈ msg.keys then p.posX + Real.cos angle0 * 3 * dt
              else p.posX
      posY := if "KeyW" ∈ msg.keys then p.posY + Real.sin angle0 * 3 * dt
              else p.posY
      angle := angle0 + msg.mouseDX * 0.003 }
  else { p with angle := angle0 }

/-- Lines 109-200: the active-agent branch of the patched updateMultiplayer
for one frame.  Increments the tick, normalizes the angle (line 122),
synthesizes input, sends it as a network message (line 168), applies
client-side prediction (lines 178-187) and hands the untouched real
`input` singleton to weaponSystem.update (line 190).  The trailing
subsystem calls (weaponSystem/mpState/killFeed/scoreboard/syncCamera,
lines 190-199) belong to the shared normal pipeline and mutate none of the
fields modelled here. -/
noncomputable def agentRun (s : Win) (p : Player) (m : MpSt) (dt : ℝ) :
    Win × FrameFx :=
  let tick := s.autoP1Tick + 1
  let rp := m.remotePlayer
  let angle0 := normalizeAngle p.angle
  let msg := agentSyntheticInput rp tick p.posX p.posY angle0 dt
  let p1 := predictPlayer s.mpMap p msg angle0 dt
  ({ s with autoP1Tick := tick, player := some p1 },
   { sent := some msg, weaponSystemInput := s.inputSub })

/-- Lines 107-205: the patched updateMultiplayer.  When
`window._autoP1Active && gameState === GameState.MP_PLAYING && player &&
player.alive` the agent branch runs (line 113 dereferences
`mpState.remotePlayer`, so a missing mpState would throw); otherwise the
original updateMultiplayer (`orig`) runs. -/
noncomputable def updateMultiplayer
    (orig : Win → ℝ → Except JsError (Win × FrameFx)) (s : Win) (dt : ℝ) :
    Except JsError (Win × FrameFx) :=
  match s.player with
  | some p =>
      if s.autoP1Active = true ∧ s.gameState = GState.mpPlaying ∧
          p.alive = true then
        match s.mpState with
        | some m => Except.ok (agentRun s p m dt)
        | none =>
            Except.error { message := "TypeError: mpState is null", stack := "" }
      else orig s dt
  | none => orig s dt

/-- Lines 207-211: window._startAutoP1. -/
def startAutoP1 (w : Win) : Win :=
  { w with autoP1Active := true, autoP1Tick := 0 }

/-- Lines 213-216: window._stopAutoP1 (note: it does not touch the tick). -/
def stopAutoP1 (w : Win) : Win :=
  { w with autoP1Active := false }

/-- JS `value || null` on a string slot: undefined and the empty string
both collapse to null. -/
def jsOrNull (o : Option String) : Option String :=
  match o with
  | some s => if s = "" then none else some s
  | none => none

/-- Lines 27-34: window._test.getState(). -/
def getState (w : Win) : StateSnap :=
  { gameState := w.gameState
    currentLevelIndex := w.currentLevelIndex
    playerHP := w.player.map (·.health)
    hasPlayer := w.player.isSome
    hasMpMap := w.mpMap
    hasMpPalette := w.mpPalette
    loopError := jsOrNull w.loopError }

/-- Line 53: window._test.getLobbyState(). -/
def getLobbyState (w : Win) : Option String :=
  w.lobbyScreen.map (·.state)

/-- Line 54: window._test.getRoomCode(). -/
def getRoomCode (w : Win) : Option String :=
  w.lobbyScreen.map (·.roomCode)

/-- Line 55: window._test.isPointerLocked().  It calls
`input.isPointerLocked()` without guarding `input`; a missing singleton
throws a ReferenceError. -/
def isPointerLocked (w : Win) : Except JsError Bool :=
  match w.inputSub with
  | some i => Except.ok i.pointerLocked
  | none =>
      Except.error { message := "ReferenceError: input is not defined", stack := "" }

/-- Line 57: window._test.getCanvasData().  It calls
`document.getElementById('game-canvas').toDataURL('image/png')` without a
null check; a missing element throws a TypeError. -/
def getCanvasData (w : Win) : Except JsError String :=
  match w.canvas with
  | some c => Except.ok c.pngData
  | none =>
      Except.error { message := "TypeError: null toDataURL", stack := "" }

/-- Lines 219-240: window._getMpStatus(); every nullable object is guarded
with a ternary. -/
def getMpStatus (w : Win) : MpStatus :=
  let rp : Option RemotePlayer :=
    match w.mpState with
    | some m => m.remotePlayer
    | none => none
  { gameState := w.gameState
    localTier := match w.mpState with | some m => m.localTier | none => -1
    remoteTier := match w.mpState with | some m => m.remoteTier | none => -1
    winnerId := match w.mpState with | some m => m.winnerId | none => none
    localId := match w.mpState with | some m => m.localId | none => none
    matchTime := match w.mpState with | some m => m.matchTime | none => 0
    playerAlive := match w.player with | some p => p.alive | none => false
    playerHP := match w.player with | some p => p.health | none => 0
    playerX := match w.player with | some p => p.posX | none => 0
    playerY := match w.player with | some p => p.posY | none => 0
    playerAngle := match w.player with | some p => p.angle | none => 0
    remoteAlive := match rp with | some r => r.alive | none => false
    remoteX := match rp with | some r => r.posX | none => 0
    remoteY := match rp with | some r => r.posY | none => 0
    autoP1Active := w.autoP1Active
    autoP1Tick := w.autoP1Tick
    loopError := jsOrNull w.loopError }

/-- Lines 79-96: the supervised game loop.  `orig` is the original gameLoop;
a throw carries the window state at the throw point together with the JS
error.  On a throw the wrapper stores `e.message + ' | ' + e.stack` in
window._loopError, attempts a best-effort blit that is wrapped in its own
swallowing catch (it touches only the display, none of the modelled
state), and calls requestAnimationFrame(gameLoop) — the returned Bool
records that re-scheduling.  The wrapper itself is total: no exception
crosses its boundary back to the scheduler. -/
def gameLoopWrapped (orig : Win → Except (Win × JsError) Win) (s : Win) :
    Win × Bool :=
  match orig s with
  | Except.ok s1 => (s1, false)
  | Except.error (s1, e) =>
      ({ s1 with loopError := some (e.message ++ " | " ++ e.stack) }, true)

/-- Lines 248-265: EvalHandler.do_GET.  `mainJs` is the content of
submissions/<id>/src/main.js on disk (none when it is missing, the
FileNotFoundError case), `hooks` the TEST_HOOKS bundle bytes, `superGet`
the inherited SimpleHTTPRequestHandler behavior for every other path. -/
def do_GET (hooks : List ℕ) (mainJs : Option (List ℕ))
    (superGet : String → HttpResponse) (path : String) : HttpResponse :=
  if path = "/src/main.js" then
    match mainJs with
    | some content =>
        { status := 200
          headers :=
            [("Content-Type", "application/javascript"),
             ("Content-Length", toString (content ++ hooks).length),
             ("Access-Control-Allow-Origin", "*")]
          body := content ++ hooks }
    | none => { status := 404, headers := [], body := [] }
  else superGet path

/-- The original update function used to instantiate counterexamples: it
returns the state unchanged and produces no effects, so on agent-active
frames (where it is never invoked anyway) every observable change is the
wrapper's own doing. -/
def origNoop : Win → ℝ → Except JsError (Win × FrameFx) :=
  fun s _ => Except.ok (s, { sent := none, weaponSystemInput := none })

/-- One supervised multiplayer frame viewed as a state transformer (the
error branch is unreachable on the frames the theorems quantify over). -/
noncomputable def frameStep (orig : Win → ℝ → Except JsError (Win × FrameFx))
    (dt : ℝ) (w : Win) : Win :=
  match updateMultiplayer orig w dt with
  | Except.ok r => r.1
  | Except.error _ => w

/-- Result of one frame with the no-op original update. -/
noncomputable def frameResult (w : Win) (dt : ℝ) :
    Except JsError (Win × FrameFx) :=
  updateMultiplayer origNoop w dt

/-- The player's stored facing angle at the end of one frame. -/
noncomputable def frameAngle (w : Win) (dt : ℝ) : Option ℝ :=
  match frameResult w dt with
  | Except.ok r => r.1.player.map (·.angle)
  | Except.error _ => none

/-- The player's stored x position at the end of one frame. -/
noncomputable def framePosX (w : Win) (dt : ℝ) : Option ℝ :=
  match frameResult w dt with
  | Except.ok r => r.1.player.map (·.posX)
  | Except.error _ => none

/-- The key list of the network input message sent during one frame. -/
noncomputable def frameSentKeys (w : Win) (dt : ℝ) : Option (List String) :=
  match frameResult w dt with
  | Except.ok r => r.2.sent.map (·.keys)
  | Except.error _ => none

/-- The key set held by the input-state object after one frame. -/
noncomputable def frameInputKeys (w : Win) (dt : ℝ) : Option (List String) :=
  match frameResult w dt with
  | Except.ok r => r.1.inputSub.map (·.keys)
  | Except.error _ => none

/-- The firing flag of the network input message of one frame result. -/
def sentFire (r : Except JsError (Win × FrameFx)) : Option Bool :=
  match r with
  | Except.ok pr => pr.2.sent.map (·.fire)
  | Except.error _ => none

/-- The conditions under which the agent branch of updateMultiplayer runs. -/
def runGuard (w : Win) : Prop :=
  w.autoP1Active = true ∧ w.gameState = GState.mpPlaying ∧
    (∃ p, w.player = some p ∧ p.alive = true) ∧ ∃ m, w.mpState = some m

lemma jsMod_mem_of_nonneg (a m : ℝ) (hm : 0 < m) (ha : 0 ≤ a) :
    0 ≤ jsMod a m ∧ jsMod a m < m := by
  have hm0 : m ≠ 0 := hm.ne'
  have hd : 0 ≤ a / m := div_nonneg ha hm.le
  have key : jsMod a m = m * Int.fract (a / m) := by
    unfold jsMod jsTrunc
    rw [if_neg (not_lt.mpr hd), Int.fract, mul_sub, mul_comm m (a / m),
      div_mul_cancel₀ _ hm0]
  refine ⟨?_, ?_⟩
  · rw [key]; exact mul_nonneg hm.le (Int.fract_nonneg _)
  · rw [key]
    calc m * Int.fract (a / m) < m * 1 :=
          mul_lt_mul_of_pos_left (Int.fract_lt_one _) hm
      _ = m := mul_one m

lemma jsMod_mem_of_neg (a m : ℝ) (hm : 0 < m) (ha : a < 0) :
    -m < jsMod a m ∧ jsMod a m ≤ 0 := by
  have hm0 : m ≠ 0 := hm.ne'
  have hd : a / m < 0 := div_neg_of_neg_of_pos ha hm
  have hself : m * (a / m) = a := by
    rw [mul_comm, div_mul_cancel₀ _ hm0]
  have hmod : jsMod a m = a - m * ⌈a / m⌉ := by
    unfold jsMod jsTrunc
    rw [if_pos hd]
  refine ⟨?_, ?_⟩
  · have h1 : (⌈a / m⌉ : ℝ) < a / m + 1 := Int.ceil_lt_add_one _
    have h2 : m * (⌈a / m⌉ : ℝ) < m * (a / m + 1) :=
      mul_lt_mul_of_pos_left h1 hm
    rw [mul_add, hself, mul_one] at h2
    rw [hmod]; linarith
  · have h1 : a / m ≤ (⌈a / m⌉ : ℝ) := Int.le_ceil _
    have h2 : m * (a / m) ≤ m * (⌈a / m⌉ : ℝ) :=
      mul_le_mul_of_nonneg_left h1 hm.le
    rw [hself] at h2
    rw [hmod]; linarith

/-- The normalization on line 122 lands in [-π, π): the inner remainder is
in (-2π, 2π), adding 3π makes the operand positive, the outer remainder is
in [0, 2π), and subtracting π gives [-π, π). -/
lemma normalizeAngle_mem (a : ℝ) : normalizeAngle a ∈ Set.Ico (-π) π := by
  have hpi := Real.pi_pos
  have h2p : (0 : ℝ) < 2 * π := by linarith
  have hinner : -(2 * π) < jsMod a (2 * π) ∧ jsMod a (2 * π) < 2 * π := by
    rcases le_or_lt 0 a with h | h
    · have hb := jsMod_mem_of_nonneg a (2 * π) h2p h
      exact ⟨by linarith [hb.1], hb.2⟩
    · have hb := jsMod_mem_of_neg a (2 * π) h2p h
      exact ⟨hb.1, by linarith [hb.2]⟩
  have hpos : 0 ≤ jsMod a (2 * π) + 3 * π := by linarith [hinner.1]
  have houter := jsMod_mem_of_nonneg (jsMod a (2 * π) + 3 * π) (2 * π) h2p hpos
  unfold normalizeAngle
  exact Set.mem_Ico.mpr ⟨by linarith [houter.1], by linarith [houter.2]⟩

/-- An angle already in [0, π) is a fixed point of the normalization. -/
lemma normalizeAngle_id (a : ℝ) (h0 : 0 ≤ a) (h1 : a < π) :
    normalizeAngle a = a := by
  have hpi := Real.pi_pos
  have h2p : (0 : ℝ) < 2 * π := by linarith
  have hf1 : ⌊a / (2 * π)⌋ = 0 := by
    rw [Int.floor_eq_zero_iff]
    constructor
    · exact div_nonneg h0 h2p.le
    · rw [div_lt_one h2p]; linarith
  have step1 : jsMod a (2 * π) = a := by
    unfold jsMod jsTrunc
    rw [if_neg (not_lt.mpr (div_nonneg h0 h2p.le)), hf1]
    simp
  have hf2 : ⌊(a + 3 * π) / (2 * π)⌋ = 1 := by
    rw [Int.floor_eq_iff]
    constructor
    · rw [le_div_iff₀ h2p]; push_cast; linarith
    · rw [div_lt_iff₀ h2p]; push_cast; linarith
  have hd2 : 0 ≤ (a + 3 * π) / (2 * π) := div_nonneg (by linarith) h2p.le
  unfold normalizeAngle
  rw [step1]
  unfold jsMod jsTrunc
  rw [if_neg (not_lt.mpr hd2), hf2]
  push_cast
  ring

lemma wrapAngle_eq_self (d : ℝ) (h1 : ¬d > π) (h2 : ¬d < -π) :
    wrapAngle d = d := by
  unfold wrapAngle
  rw [if_neg h1, if_neg h2]

lemma wrapAngle_zero : wrapAngle 0 = 0 := by
  have hpi := Real.pi_pos
  exact wrapAngle_eq_self 0 (by linarith) (by linarith)

lemma wrapAngle_add (d : ℝ) (h : d < -π) : wrapAngle d = d + 2 * π := by
  have hpi := Real.pi_pos
  unfold wrapAngle
  rw [if_neg (by linarith), if_pos h]

lemma steerMouseDX_mem (d : ℝ) :
    -300 ≤ steerMouseDX d ∧ steerMouseDX d ≤ 300 :=
  ⟨le_max_left _ _, max_le (by norm_num) (min_le_left _ _)⟩

/-- When the wrapped difference has magnitude at most 0.9, the clamp is the
identity and the division by 0.003 round-trips exactly. -/
lemma steerMouseDX_roundtrip (d : ℝ) (h : |d| ≤ 9 / 10) :
    steerMouseDX d * 0.003 = d := by
  have h003 : (0 : ℝ) < 0.003 := by norm_num
  obtain ⟨hl, hu⟩ := abs_le.mp h
  have h1 : d / 0.003 ≤ 300 := by
    rw [div_le_iff₀ h003]; nlinarith
  have h2 : (-300 : ℝ) ≤ d / 0.003 := by
    rw [le_div_iff₀ h003]; nlinarith
  unfold steerMouseDX
  rw [min_eq_right h1, max_eq_right h2,
    div_mul_cancel₀ _ (by norm_num : (0.003 : ℝ) ≠ 0)]

lemma atan2_zero_pos (x : ℝ) (hx : 0 < x) : atan2 0 x = 0 := by
  unfold atan2
  rw [if_pos hx, zero_div, Real.arctan_zero]

lemma atan2_neg_down (y : ℝ) (hy : y < 0) : atan2 y 0 = -(π / 2) := by
  unfold atan2
  rw [if_neg (lt_irrefl 0), if_neg (lt_irrefl 0), if_neg (by linarith), if_pos hy]

lemma atan2_neg_neg_one : atan2 (-1) (-1) = -(3 * π / 4) := by
  unfold atan2
  rw [if_neg (by norm_num), if_pos (by norm_num : (-1 : ℝ) < 0),
    if_neg (by norm_num : ¬(0 : ℝ) ≤ -1),
    show ((-1 : ℝ) / -1) = 1 by norm_num, Real.arctan_one]
  ring

lemma updateMultiplayer_run (orig : Win → ℝ → Except JsError (Win × FrameFx))
    (s : Win) (p : Player) (m : MpSt) (dt : ℝ) (hp : s.player = some p)
    (ha : s.autoP1Active = true) (hg : s.gameState = GState.mpPlaying)
    (hal : p.alive = true) (hm : s.mpState = some m) :
    updateMultiplayer orig s dt = Except.ok (agentRun s p m dt) := by
  unfold updateMultiplayer
  simp only [hp, hm]
  rw [if_pos ⟨ha, hg, hal⟩]

lemma agentRun_tick (s : Win) (p : Player) (m : MpSt) (dt : ℝ) :
    (agentRun s p m dt).1.autoP1Tick = s.autoP1Tick + 1 := rfl

lemma agentRun_inputSub (s : Win) (p : Player) (m : MpSt) (dt : ℝ) :
    (agentRun s p m dt).1.inputSub = s.inputSub := rfl

lemma agentRun_mpState (s : Win) (p : Player) (m : MpSt) (dt : ℝ) :
    (agentRun s p m dt).1.mpState = s.mpState := rfl

lemma agentRun_player (s : Win) (p : Player) (m : MpSt) (dt : ℝ) :
    (agentRun s p m dt).1.player =
      some (predictPlayer s.mpMap p
        (agentSyntheticInput m.remotePlayer (s.autoP1Tick + 1) p.posX p.posY
          (normalizeAngle p.angle) dt) (normalizeAngle p.angle) dt) := rfl

lemma agentRun_sent (s : Win) (p : Player) (m : MpSt) (dt : ℝ) :
    (agentRun s p m dt).2.sent =
      some (agentSyntheticInput m.remotePlayer (s.autoP1Tick + 1) p.posX
        p.posY (normalizeAngle p.angle) dt) := rfl

lemma agentRun_weaponInput (s : Win) (p : Player) (m : MpSt) (dt : ℝ) :
    (agentRun s p m dt).2.weaponSystemInput = s.inputSub := rfl

lemma synth_keys (rp : Option RemotePlayer) (t : ℕ) (x y a dt : ℝ) :
    (agentSyntheticInput rp t x y a dt).keys = strafeKeys t := rfl

lemma synth_fire (rp : Option RemotePlayer) (t : ℕ) (x y a dt : ℝ) :
    (agentSyntheticInput rp t x y a dt).fire = fireDecision rp x y a := rfl

lemma synth_mouseDX (rp : Option RemotePlayer) (t : ℕ) (x y a dt : ℝ) :
    (agentSyntheticInput rp t x y a dt).mouseDX =
      steerMouseDX (angleDiffOf rp t x y a) :=
  rfl

lemma predictPlayer_health (mp : Bool) (p : Player) (msg : InputMsg)
    (a dt : ℝ) : (predictPlayer mp p msg a dt).health = p.health := by
  unfold predictPlayer
  split <;> rfl

lemma predictPlayer_alive (mp : Bool) (p : Player) (msg : InputMsg)
    (a dt : ℝ) : (predictPlayer mp p msg a dt).alive = p.alive := by
  unfold predictPlayer
  split <;> rfl

lemma predictPlayer_angle_on (mp : Bool) (p : Player) (msg : InputMsg)
    (a dt : ℝ) (h1 : p.alive = true) (h2 : mp = true) :
    (predictPlayer mp p msg a dt).angle = a + msg.mouseDX * 0.003 := by
  unfold predictPlayer
  rw [if_pos ⟨h1, h2⟩]

lemma predictPlayer_posX_on (mp : Bool) (p : Player) (msg : InputMsg)
    (a dt : ℝ) (h1 : p.alive = true) (h2 : mp = true)
    (hk : "KeyW" ∈ msg.keys) :
    (predictPlayer mp p msg a dt).posX = p.posX + Real.cos a * 3 * dt := by
  unfold predictPlayer
  rw [if_pos ⟨h1, h2⟩]
  simp only [if_pos hk]

lemma predictPlayer_angle_off (mp : Bool) (p : Player) (msg : InputMsg)
    (a dt : ℝ) (h : ¬(p.alive = true ∧ mp = true)) :
    (predictPlayer mp p msg a dt).angle = a := by
  unfold predictPlayer
  rw [if_neg h]

lemma keyW_mem (t : ℕ) : "KeyW" ∈ strafeKeys t := by
  unfold strafeKeys
  exact List.mem_cons_self _ _

lemma navTarget_pursuit (r : RemotePlayer) (t : ℕ) (x y : ℝ)
    (hopen : y > 6 ∧ x > 8 ∧ x < 24) (halive : r.alive = true) :
    navTarget (some r) t x y = (r.posX, r.posY) := by
  unfold navTarget
  rw [if_neg (not_not_intro hopen)]
  simp only [halive, if_true]

/-- Sample human-input singleton: no keys held, no firing. -/
def i0 : InputSub :=
  { pointerLocked := false, keys := [], mouseDX := 0, mouseDY := 0,
    firing := false }

/-- Sample local player standing at (16, 12) in the open area, facing 0. -/
def p0 : Player :=
  { posX := 16, posY := 12, angle := 0, health := 100, alive := true }

/-- Player as `p0` but facing π - 1/2. -/
noncomputable def p3 : Player := { p0 with angle := π - 1 / 2 }

/-- Player as `p0` but facing π - 1/10. -/
noncomputable def p10 : Player := { p0 with angle := π - 1 / 10 }

/-- Dead player at (16, 12). -/
def pDead : Player := { p0 with alive := false }

/-- Live remote player at (18, 12), due east of `p0`, distance 2. -/
def rpNear : RemotePlayer := { posX := 18, posY := 12, alive := true }

/-- Live remote player at (16, 6), due south of `p0` (screen up). -/
def rpSouth : RemotePlayer := { posX := 16, posY := 6, alive := true }

/-- Live remote player at (15, 11), diagonal from `p0` at bearing -3π/4. -/
def rpDiag : RemotePlayer := { posX := 15, posY := 11, alive := true }

/-- Multiplayer state with the given remote snapshot. -/
def mkM (rp : Option RemotePlayer) : MpSt :=
  { remotePlayer := rp, localTier := 0, remoteTier := 0, winnerId := none,
    localId := none, matchTime := 0 }

/-- Window state of an agent-active multiplayer frame: agent started,
match playing, map loaded, tick 0, quiescent human input object. -/
def mkW (p : Player) (rp : RemotePlayer) : Win :=
  { gameState := GState.mpPlaying, currentLevelIndex := 0, player := some p,
    mpMap := true, mpPalette := true, mpState := some (mkM (some rp)),
    lobbyScreen := none, inputSub := some i0, canvas := none,
    autoP1Active := true, autoP1Tick := 0, loopError := none }

def w1 : Win := mkW p0 rpNear

noncomputable def w3 : Win := mkW p3 rpSouth

noncomputable def w10 : Win := mkW p10 rpDiag

def wDead : Win := mkW pDead rpNear

/-- Window state before any game objects exist. -/
def wEmpty : Win :=
  { gameState := GState.lobby, currentLevelIndex := 0, player := none,
    mpMap := false, mpPalette := false, mpState := none, lobbyScreen := none,
    inputSub := none, canvas := none, autoP1Active := false,
    autoP1Tick := 0, loopError := none }

lemma normalizeAngle_zero : normalizeAngle 0 = 0 :=
  normalizeAngle_id 0 le_rfl Real.pi_pos

lemma frameResult_w1 :
    frameResult w1 1 = Except.ok (agentRun w1 p0 (mkM (some rpNear)) 1) :=
  updateMultiplayer_run origNoop w1 p0 (mkM (some rpNear)) 1 rfl rfl rfl rfl rfl

lemma frameResult_w3 :
    frameResult w3 1 = Except.ok (agentRun w3 p3 (mkM (some rpSouth)) 1) :=
  updateMultiplayer_run origNoop w3 p3 (mkM (some rpSouth)) 1 rfl rfl rfl rfl rfl

lemma frameResult_w10 :
    frameResult w10 1 = Except.ok (agentRun w10 p10 (mkM (some rpDiag)) 1) :=
  updateMultiplayer_run origNoop w10 p10 (mkM (some rpDiag)) 1 rfl rfl rfl rfl rfl

lemma sqrt_four : Real.sqrt 4 = 2 := by
  rw [show (4 : ℝ) = 2 ^ 2 by norm_num, Real.sqrt_sq (by norm_num : (0 : ℝ) ≤ 2)]

lemma fire_w1 : fireDecision (some rpNear) 16 12 0 = true := by
  have hdiff :
      wrapAngle (atan2 ((12 : ℝ) - 12) ((18 : ℝ) - 16) - 0) = 0 := by
    rw [show ((12 : ℝ) - 12) = 0 by norm_num,
      show ((18 : ℝ) - 16) = 2 by norm_num,
      atan2_zero_pos 2 (by norm_num), show ((0 : ℝ) - 0) = 0 by norm_num,
      wrapAngle_zero]
  have hdist :
      Real.sqrt (((18 : ℝ) - 16) ^ 2 + ((12 : ℝ) - 12) ^ 2) = 2 := by
    rw [show ((18 : ℝ) - 16) ^ 2 + ((12 : ℝ) - 12) ^ 2 = (4 : ℝ) by norm_num,
      sqrt_four]
  have hcond :
      |wrapAngle (atan2 ((12 : ℝ) - 12) ((18 : ℝ) - 16) - 0)| < 0.44 ∧
        Real.sqrt (((18 : ℝ) - 16) ^ 2 + ((12 : ℝ) - 12) ^ 2) < 20 :=
    ⟨by rw [hdiff]; norm_num, by rw [hdist]; norm_num⟩
  show (if |wrapAngle (atan2 ((12 : ℝ) - 12) ((18 : ℝ) - 16) - 0)| < 0.44 ∧
      Real.sqrt (((18 : ℝ) - 16) ^ 2 + ((12 : ℝ) - 12) ^ 2) < 20
    then true else false) = true
  rw [if_pos hcond]

/-- C1 (corrected): on an agent-active frame the synthetic input is NOT
written into the input-state object: the wrapper sends it directly as a
network message while the `input` singleton is left untouched.  At the
concrete state `w1` the synthesized key list is [KeyW, KeyA] but the
input-state object still holds no keys after the frame. -/
theorem claim1_counterexample :
    frameSentKeys w1 1 = some ["KeyW", "KeyA"] ∧
    frameInputKeys w1 1 = some [] ∧
    (["KeyW", "KeyA"] : List String) ≠ [] := by
  refine ⟨?_, ?_, by decide⟩
  · unfold frameSentKeys
    rw [frameResult_w1]
    rfl
  · unfold frameInputKeys
    rw [frameResult_w1]
    rfl

/-- C1 (amended): on every frame in which the agent is active and runs,
the wrapper leaves the input-state object unchanged, passes that untouched
object to the weapon system, and delivers the synthesized keys, mouse
delta and firing flag directly as the outgoing network input message. -/
theorem claim1_theorem (orig : Win → ℝ → Except JsError (Win × FrameFx))
    (w : Win) (p : Player) (m : MpSt) (dt : ℝ) (hp : w.player = some p)
    (ha : w.autoP1Active = true) (hg : w.gameState = GState.mpPlaying)
    (hal : p.alive = true) (hm : w.mpState = some m) :
    ∃ w1 fx, updateMultiplayer orig w dt = Except.ok (w1, fx) ∧
      w1.inputSub = w.inputSub ∧ fx.weaponSystemInput = w.inputSub ∧
      fx.sent = some (agentSyntheticInput m.remotePlayer (w.autoP1Tick + 1)
        p.posX p.posY (normalizeAngle p.angle) dt) := by
  refine ⟨(agentRun w p m dt).1, (agentRun w p m dt).2, ?_,
    agentRun_inputSub w p m dt, agentRun_weaponInput w p m dt,
    agentRun_sent w p m dt⟩
  rw [updateMultiplayer_run orig w p m dt hp ha hg hal hm]

/-- Witness for C1's amended theorem at the concrete state `w1`. -/
theorem claim1_witness :
    ∃ w' fx, updateMultiplayer origNoop w1 1 = Except.ok (w', fx) ∧
      w'.inputSub = w1.inputSub ∧ fx.weaponSystemInput = w1.inputSub ∧
      fx.sent = some (agentSyntheticInput (mkM (some rpNear)).remotePlayer
        (w1.autoP1Tick + 1) p0.posX p0.posY (normalizeAngle p0.angle) 1) :=
  claim1_theorem origNoop w1 p0 (mkM (some rpNear)) 1 rfl rfl rfl rfl rfl

/-- C2 (corrected): the agent DOES directly mutate the local player's
position: at `w1` (facing 0, KeyW synthesized, dt = 1) the frame moves
posX from 16 to 19 through the wrapper's own prediction code, with the
original update pipeline never invoked. -/
theorem claim2_counterexample :
    framePosX w1 1 = some 19 ∧ w1.player = some p0 ∧ p0.posX = 16 ∧
    (19 : ℝ) ≠ 16 := by
  refine ⟨?_, rfl, rfl, by norm_num⟩
  unfold framePosX
  rw [frameResult_w1]
  show ((agentRun w1 p0 (mkM (some rpNear)) 1).1.player.map (·.posX)) = _
  rw [agentRun_player]
  simp only [Option.map_some']
  rw [predictPlayer_posX_on w1.mpMap p0 _ (normalizeAngle p0.angle) 1 rfl rfl
    (by rw [synth_keys]; exact keyW_mem _)]
  have hval : p0.posX + Real.cos (normalizeAngle p0.angle) * 3 * 1 = 19 := by
    rw [show p0.angle = 0 from rfl, normalizeAngle_zero, Real.cos_zero]
    show (16 : ℝ) + 1 * 3 * 1 = 19
    norm_num
  rw [hval]

/-- C2 (amended): on every frame in which the agent is active and runs,
the agent's direct mutations are exactly the client-side prediction of
position and facing angle; health, alive flag and the mpState record
(tiers / match score) are not mutated by the agent's own code. -/
theorem claim2_theorem (orig : Win → ℝ → Except JsError (Win × FrameFx))
    (w : Win) (p : Player) (m : MpSt) (dt : ℝ) (hp : w.player = some p)
    (ha : w.autoP1Active = true) (hg : w.gameState = GState.mpPlaying)
    (hal : p.alive = true) (hm : w.mpState = some m) :
    ∃ w1 fx, updateMultiplayer orig w dt = Except.ok (w1, fx) ∧
      ∃ p1, w1.player = some p1 ∧ p1.health = p.health ∧
        p1.alive = p.alive ∧ w1.mpState = w.mpState ∧
        (w.mpMap = true →
          p1.posX = p.posX + Real.cos (normalizeAngle p.angle) * 3 * dt ∧
          p1.angle = normalizeAngle p.angle +
            (agentSyntheticInput m.remotePlayer (w.autoP1Tick + 1) p.posX
              p.posY (normalizeAngle p.angle) dt).mouseDX * 0.003) := by
  refine ⟨(agentRun w p m dt).1, (agentRun w p m dt).2, ?_, ?_⟩
  · rw [updateMultiplayer_run orig w p m dt hp ha hg hal hm]
  · refine ⟨_, agentRun_player w p m dt, predictPlayer_health _ _ _ _ _,
      predictPlayer_alive _ _ _ _ _, agentRun_mpState w p m dt, ?_⟩
    intro hmp
    refine ⟨?_, ?_⟩
    · exact predictPlayer_posX_on _ _ _ _ _ hal hmp
        (by rw [synth_keys]; exact keyW_mem _)
    · exact predictPlayer_angle_on _ _ _ _ _ hal hmp

/-- Witness for C2's amended theorem at the concrete state `w1`. -/
theorem claim2_witness :
    ∃ w' fx, updateMultiplayer origNoop w1 1 = Except.ok (w', fx) ∧
      ∃ p1, w'.player = some p1 ∧ p1.health = p0.health ∧
        p1.alive = p0.alive ∧ w'.mpState = w1.mpState ∧
        (w1.mpMap = true →
          p1.posX = p0.posX + Real.cos (normalizeAngle p0.angle) * 3 * 1 ∧
          p1.angle = normalizeAngle p0.angle +
            (agentSyntheticInput (mkM (some rpNear)).remotePlayer
              (w1.autoP1Tick + 1) p0.posX p0.posY (normalizeAngle p0.angle)
              1).mouseDX * 0.003) :=
  claim2_theorem origNoop w1 p0 (mkM (some rpNear)) 1 rfl rfl rfl rfl rfl

/-- C6 (confirmed): on every frame in which the agent is active and runs,
the sent firing flag is true only if the remote snapshot exists, is marked
alive, the wrapped bearing difference to the (normalized) facing has
magnitude below 0.44, and the distance is below 20; in particular a dead
opponent never draws fire. -/
theorem claim6_theorem (orig : Win → ℝ → Except JsError (Win × FrameFx))
    (w : Win) (p : Player) (m : MpSt) (dt : ℝ) (hp : w.player = some p)
    (ha : w.autoP1Active = true) (hg : w.gameState = GState.mpPlaying)
    (hal : p.alive = true) (hm : w.mpState = some m)
    (hfire : sentFire (updateMultiplayer orig w dt) = some true) :
    ∃ r, m.remotePlayer = some r ∧ r.alive = true ∧
      |wrapAngle (atan2 (r.posY - p.posY) (r.posX - p.posX) -
        normalizeAngle p.angle)| < 0.44 ∧
      Real.sqrt ((r.posX - p.posX) ^ 2 + (r.posY - p.posY) ^ 2) < 20 := by
  rw [updateMultiplayer_run orig w p m dt hp ha hg hal hm] at hfire
  have hf : fireDecision m.remotePlayer p.posX p.posY
      (normalizeAngle p.angle) = true := by
    simpa [sentFire, agentRun_sent, synth_fire] using hfire
  cases hrp : m.remotePlayer with
  | none => rw [hrp] at hf; simp [fireDecision] at hf
  | some r =>
      rw [hrp] at hf
      simp only [fireDecision] at hf
      split_ifs at hf with h1 h2
      · exact ⟨r, rfl, h1, h2.1, h2.2⟩

/-- Witness for C6 at the concrete state `w1`, whose frame does fire. -/
theorem claim6_witness :
    ∃ r, (mkM (some rpNear)).remotePlayer = some r ∧ r.alive = true ∧
      |wrapAngle (atan2 (r.posY - p0.posY) (r.posX - p0.posX) -
        normalizeAngle p0.angle)| < 0.44 ∧
      Real.sqrt ((r.posX - p0.posX) ^ 2 + (r.posY - p0.posY) ^ 2) < 20 := by
  refine claim6_theorem origNoop w1 p0 (mkM (some rpNear)) 1 rfl rfl rfl rfl
    rfl ?_
  rw [updateMultiplayer_run origNoop w1 p0 (mkM (some rpNear)) 1 rfl rfl rfl
    rfl rfl]
  have : fireDecision (mkM (some rpNear)).remotePlayer p0.posX p0.posY
      (normalizeAngle p0.angle) = true := by
    show fireDecision (some rpNear) 16 12 (normalizeAngle 0) = true
    rw [normalizeAngle_zero]
    exact fire_w1
  simp [sentFire, agentRun_sent, synth_fire, this]

lemma mdx_w3 : steerMouseDX (angleDiffOf (some rpSouth) 1 16 12 (π - 1 / 2)) = 300 := by
  unfold angleDiffOf targetAngleOf
  rw [navTarget_pursuit rpSouth 1 16 12 (by norm_num) rfl]
  show steerMouseDX (wrapAngle (atan2 ((6 : ℝ) - 12) ((16 : ℝ) - 16) - (π - 1 / 2))) = 300
  rw [show ((6 : ℝ) - 12) = -6 by norm_num, show ((16 : ℝ) - 16) = 0 by norm_num,
    atan2_neg_down (-6) (by norm_num)]
  have harg : -(π / 2) - (π - 1 / 2) = -(3 * π / 2) + 1 / 2 := by ring
  rw [harg, wrapAngle_add _ (by linarith [Real.pi_gt_three])]
  have hsum : -(3 * π / 2) + 1 / 2 + 2 * π = π / 2 + 1 / 2 := by ring
  rw [hsum]
  unfold steerMouseDX
  have h300 : (300 : ℝ) ≤ (π / 2 + 1 / 2) / 0.003 := by
    rw [le_div_iff₀ (by norm_num : (0 : ℝ) < 0.003)]
    nlinarith [Real.pi_gt_three]
  rw [min_eq_left h300]
  exact max_eq_right (by norm_num)

/-- C3 (corrected): the end-of-frame facing angle can leave (-π, π].  At
`w3` the player starts facing π - 1/2, the target sits due south, and the
clamped steering adds the full 0.9 radians, ending the frame at π + 2/5,
outside (-π, π]. -/
theorem claim3_counterexample :
    frameAngle w3 1 = some (π + 2 / 5) ∧ (π + 2 / 5) ∉ Set.Ioc (-π) π := by
  constructor
  · unfold frameAngle
    rw [frameResult_w3]
    show ((agentRun w3 p3 (mkM (some rpSouth)) 1).1.player.map (·.angle)) = _
    rw [agentRun_player]
    simp only [Option.map_some']
    rw [predictPlayer_angle_on w3.mpMap p3 _ (normalizeAngle p3.angle) 1 rfl rfl]
    have hnorm : normalizeAngle p3.angle = π - 1 / 2 := by
      show normalizeAngle (π - 1 / 2) = π - 1 / 2
      exact normalizeAngle_id _ (by linarith [Real.pi_gt_three])
        (by linarith [Real.pi_pos])
    have hmdx : (agentSyntheticInput (mkM (some rpSouth)).remotePlayer
        (w3.autoP1Tick + 1) p3.posX p3.posY (π - 1 / 2) 1).mouseDX = 300 := by
      rw [synth_mouseDX]
      show steerMouseDX (angleDiffOf (some rpSouth) 1 16 12 (π - 1 / 2)) = 300
      exact mdx_w3
    rw [hnorm, hmdx]
    have hval : π - 1 / 2 + 300 * 0.003 = π + 2 / 5 := by
      have h : (300 : ℝ) * 0.003 = 9 / 10 := by norm_num
      rw [h]; ring
    rw [hval]
  · intro hmem
    have h2 := hmem.2
    linarith

/-- C3 (amended): on every frame in which the agent is active and runs,
the angle written by the start-of-frame normalization lies in [-π, π), and
the stored angle at the end of the frame lies in [-π - 0.9, π + 0.9): the
normalization bound relaxed by at most the clamped mouse delta (at most
300) times the 0.003 sensitivity. -/
theorem claim3_theorem (orig : Win → ℝ → Except JsError (Win × FrameFx))
    (w : Win) (p : Player) (m : MpSt) (dt : ℝ) (hp : w.player = some p)
    (ha : w.autoP1Active = true) (hg : w.gameState = GState.mpPlaying)
    (hal : p.alive = true) (hm : w.mpState = some m) :
    normalizeAngle p.angle ∈ Set.Ico (-π) π ∧
    ∃ w1 fx, updateMultiplayer orig w dt = Except.ok (w1, fx) ∧
      ∃ p1, w1.player = some p1 ∧
        p1.angle ∈ Set.Ico (-π - 9 / 10) (π + 9 / 10) := by
  have hbase := Set.mem_Ico.mp (normalizeAngle_mem p.angle)
  refine ⟨normalizeAngle_mem p.angle, (agentRun w p m dt).1,
    (agentRun w p m dt).2, ?_, _, agentRun_player w p m dt, ?_⟩
  · rw [updateMultiplayer_run orig w p m dt hp ha hg hal hm]
  · rw [Set.mem_Ico]
    by_cases hmp : w.mpMap = true
    · rw [predictPlayer_angle_on w.mpMap p _ (normalizeAngle p.angle) dt hal
        hmp, synth_mouseDX]
      obtain ⟨hl, hu⟩ := steerMouseDX_mem
        (angleDiffOf m.remotePlayer (w.autoP1Tick + 1) p.posX p.posY
          (normalizeAngle p.angle))
      constructor
      · nlinarith [hbase.1]
      · nlinarith [hbase.2]
    · rw [predictPlayer_angle_off w.mpMap p _ (normalizeAngle p.angle) dt
        (fun hand => hmp hand.2)]
      constructor
      · linarith [hbase.1]
      · linarith [hbase.2]

/-- Witness for C3's amended theorem at the concrete state `w1`. -/
theorem claim3_witness :
    normalizeAngle p0.angle ∈ Set.Ico (-π) π ∧
    ∃ w' fx, updateMultiplayer origNoop w1 1 = Except.ok (w', fx) ∧
      ∃ p1, w'.player = some p1 ∧
        p1.angle ∈ Set.Ico (-π - 9 / 10) (π + 9 / 10) :=
  claim3_theorem origNoop w1 p0 (mkM (some rpNear)) 1 rfl rfl rfl rfl rfl

lemma angleDiff_w1 : angleDiffOf (some rpNear) 1 16 12 0 = 0 := by
  unfold angleDiffOf targetAngleOf
  rw [navTarget_pursuit rpNear 1 16 12 (by norm_num) rfl]
  show wrapAngle (atan2 ((12 : ℝ) - 12) ((18 : ℝ) - 16) - 0) = 0
  rw [show ((12 : ℝ) - 12) = 0 by norm_num, show ((18 : ℝ) - 16) = 2 by norm_num,
    atan2_zero_pos 2 (by norm_num), show ((0 : ℝ) - 0) = 0 by norm_num,
    wrapAngle_zero]

lemma target_w10 : targetAngleOf (some rpDiag) 1 16 12 = -(3 * π / 4) := by
  unfold targetAngleOf
  rw [navTarget_pursuit rpDiag 1 16 12 (by norm_num) rfl]
  show atan2 ((11 : ℝ) - 12) ((15 : ℝ) - 16) = -(3 * π / 4)
  rw [show ((11 : ℝ) - 12) = -1 by norm_num, show ((15 : ℝ) - 16) = -1 by norm_num]
  exact atan2_neg_neg_one

lemma angleDiff_w10 :
    angleDiffOf (some rpDiag) 1 16 12 (π - 1 / 10) = π / 4 + 1 / 10 := by
  unfold angleDiffOf
  rw [target_w10]
  have harg : -(3 * π / 4) - (π - 1 / 10) = -(7 * π / 4) + 1 / 10 := by ring
  rw [harg, wrapAngle_add _ (by linarith [Real.pi_gt_three])]
  ring

lemma angleDiff_w10_small :
    |angleDiffOf (some rpDiag) 1 16 12 (π - 1 / 10)| ≤ 9 / 10 := by
  rw [angleDiff_w10, abs_of_pos (by linarith [Real.pi_pos])]
  linarith [Real.pi_lt_d2]

/-- C10 (corrected): the round-trip part holds — with the wrapped
difference at most 0.9 in magnitude the clamp is the identity and
mouseDX * 0.003 recovers the difference exactly — but the end-of-frame
predicted facing equals the bearing only modulo 2π.  At `w10` the wrapped
difference is π/4 + 1/10 ≤ 0.9, yet the frame ends at 5π/4 while the
bearing is -3π/4: they differ by a full turn. -/
theorem claim10_counterexample :
    |angleDiffOf (some rpDiag) 1 16 12 (π - 1 / 10)| ≤ 9 / 10 ∧
    targetAngleOf (some rpDiag) 1 16 12 = -(3 * π / 4) ∧
    frameAngle w10 1 = some (5 * π / 4) ∧
    (5 * π / 4 : ℝ) ≠ -(3 * π / 4) := by
  refine ⟨angleDiff_w10_small, target_w10, ?_, ?_⟩
  · unfold frameAngle
    rw [frameResult_w10]
    show ((agentRun w10 p10 (mkM (some rpDiag)) 1).1.player.map (·.angle)) = _
    rw [agentRun_player]
    simp only [Option.map_some']
    rw [predictPlayer_angle_on w10.mpMap p10 _ (normalizeAngle p10.angle) 1
      rfl rfl]
    have hnorm : normalizeAngle p10.angle = π - 1 / 10 := by
      show normalizeAngle (π - 1 / 10) = π - 1 / 10
      exact normalizeAngle_id _ (by linarith [Real.pi_gt_three])
        (by linarith [Real.pi_pos])
    have hmdx : (agentSyntheticInput (mkM (some rpDiag)).remotePlayer
        (w10.autoP1Tick + 1) p10.posX p10.posY (π - 1 / 10) 1).mouseDX *
          0.003 = π / 4 + 1 / 10 := by
      rw [synth_mouseDX]
      show steerMouseDX (angleDiffOf (some rpDiag) 1 16 12 (π - 1 / 10)) *
        0.003 = π / 4 + 1 / 10
      rw [steerMouseDX_roundtrip _ angleDiff_w10_small, angleDiff_w10]
    rw [hnorm, hmdx]
    have hval : π - 1 / 10 + (π / 4 + 1 / 10) = 5 * π / 4 := by ring
    rw [hval]
  · intro h
    have := Real.pi_pos
    linarith

/-- C10 (amended): on every frame in which the agent is active and runs
with the map loaded, if the wrapped angular difference has magnitude at
most 0.9 then the clamped mouse delta times the 0.003 sensitivity equals
that difference exactly, and the end-of-frame predicted facing equals the
bearing to the navigation target up to an integer multiple of 2π. -/
theorem claim10_theorem (orig : Win → ℝ → Except JsError (Win × FrameFx))
    (w : Win) (p : Player) (m : MpSt) (dt : ℝ) (hp : w.player = some p)
    (ha : w.autoP1Active = true) (hg : w.gameState = GState.mpPlaying)
    (hal : p.alive = true) (hm : w.mpState = some m) (hmp : w.mpMap = true)
    (hdiff : |angleDiffOf m.remotePlayer (w.autoP1Tick + 1) p.posX p.posY
      (normalizeAngle p.angle)| ≤ 9 / 10) :
    steerMouseDX (angleDiffOf m.remotePlayer (w.autoP1Tick + 1) p.posX
        p.posY (normalizeAngle p.angle)) * 0.003 =
      angleDiffOf m.remotePlayer (w.autoP1Tick + 1) p.posX p.posY
        (normalizeAngle p.angle) ∧
    ∃ w1 fx, updateMultiplayer orig w dt = Except.ok (w1, fx) ∧
      ∃ p1, w1.player = some p1 ∧ ∃ k : ℤ,
        p1.angle = targetAngleOf m.remotePlayer (w.autoP1Tick + 1) p.posX
          p.posY + 2 * π * k := by
  have hrt := steerMouseDX_roundtrip _ hdiff
  refine ⟨hrt, (agentRun w p m dt).1, (agentRun w p m dt).2, ?_, _,
    agentRun_player w p m dt, ?_⟩
  · rw [updateMultiplayer_run orig w p m dt hp ha hg hal hm]
  · rw [predictPlayer_angle_on w.mpMap p _ (normalizeAngle p.angle) dt hal
      hmp, synth_mouseDX, hrt]
    show ∃ k : ℤ, normalizeAngle p.angle +
      wrapAngle (targetAngleOf m.remotePlayer (w.autoP1Tick + 1) p.posX
        p.posY - normalizeAngle p.angle) =
      targetAngleOf m.remotePlayer (w.autoP1Tick + 1) p.posX p.posY +
        2 * π * k
    set a0 := normalizeAngle p.angle
    set t := targetAngleOf m.remotePlayer (w.autoP1Tick + 1) p.posX p.posY
    unfold wrapAngle
    by_cases h1 : t - a0 > π
    · exact ⟨-1, by rw [if_pos h1]; push_cast; ring⟩
    · by_cases h2 : t - a0 < -π
      · exact ⟨1, by rw [if_neg h1, if_pos h2]; push_cast; ring⟩
      · exact ⟨0, by rw [if_neg h1, if_neg h2]; push_cast; ring⟩

/-- Witness for C10's amended theorem at the concrete state `w1`, whose
wrapped angular difference is 0. -/
theorem claim10_witness :
    steerMouseDX (angleDiffOf (mkM (some rpNear)).remotePlayer
        (w1.autoP1Tick + 1) p0.posX p0.posY (normalizeAngle p0.angle)) *
      0.003 =
      angleDiffOf (mkM (some rpNear)).remotePlayer (w1.autoP1Tick + 1)
        p0.posX p0.posY (normalizeAngle p0.angle) ∧
    ∃ w' fx, updateMultiplayer origNoop w1 1 = Except.ok (w', fx) ∧
      ∃ p1, w'.player = some p1 ∧ ∃ k : ℤ,
        p1.angle = targetAngleOf (mkM (some rpNear)).remotePlayer
          (w1.autoP1Tick + 1) p0.posX p0.posY + 2 * π * k := by
  refine claim10_theorem origNoop w1 p0 (mkM (some rpNear)) 1 rfl rfl rfl rfl
    rfl rfl ?_
  show |angleDiffOf (some rpNear) 1 16 12 (normalizeAngle 0)| ≤ 9 / 10
  rw [normalizeAngle_zero, angleDiff_w1]
  norm_num

/-- C4 (confirmed): when one frame's update/render throws, the supervisor
stores the error's message and stack in the error slot, getState reports
it as a non-null value containing the message as a prefix, and it
re-schedules the next frame; the wrapper itself returns normally, so no
exception crosses back to the scheduler. -/
theorem claim4_theorem (orig : Win → Except (Win × JsError) Win)
    (s s1 : Win) (e : JsError) (h : orig s = Except.error (s1, e)) :
    gameLoopWrapped orig s =
      ({ s1 with loopError := some (e.message ++ " | " ++ e.stack) }, true) ∧
    (getState { s1 with
        loopError := some (e.message ++ " | " ++ e.stack) }).loopError =
      some (e.message ++ " | " ++ e.stack) ∧
    some (e.message ++ " | " ++ e.stack) ≠ (none : Option String) ∧
    e.message.data <+: (e.message ++ " | " ++ e.stack).data := by
  refine ⟨?_, ?_, by simp, ?_⟩
  · unfold gameLoopWrapped
    rw [h]
  · show (if (e.message ++ " | " ++ e.stack) = "" then none
      else some (e.message ++ " | " ++ e.stack)) =
      some (e.message ++ " | " ++ e.stack)
    rw [if_neg ?_]
    intro hEq
    have hlen : (e.message ++ " | " ++ e.stack).length = 0 := by rw [hEq]; rfl
    rw [String.length_append, String.length_append] at hlen
    have h3 : (" | ").length = 3 := rfl
    omega
  · have hdata : (e.message ++ " | " ++ e.stack).data =
        e.message.data ++ (" | " ++ e.stack).data := by
      simp [String.data_append, List.append_assoc]
    rw [hdata]
    exact List.prefix_append _ _

/-- A frame that always throws, for instantiating the supervisor theorem. -/
def jsBoom : JsError := { message := "boom", stack := "trace" }

def origBoom : Win → Except (Win × JsError) Win :=
  fun _ => Except.error (wEmpty, jsBoom)

/-- Witness for C4 with a concrete throwing frame. -/
theorem claim4_witness :
    gameLoopWrapped origBoom wEmpty =
      ({ wEmpty with
          loopError := some (jsBoom.message ++ " | " ++ jsBoom.stack) },
        true) ∧
    (getState { wEmpty with
        loopError := some (jsBoom.message ++ " | " ++ jsBoom.stack) }).loopError =
      some (jsBoom.message ++ " | " ++ jsBoom.stack) ∧
    some (jsBoom.message ++ " | " ++ jsBoom.stack) ≠ (none : Option String) ∧
    jsBoom.message.data <+: (jsBoom.message ++ " | " ++ jsBoom.stack).data :=
  claim4_theorem origBoom wEmpty wEmpty jsBoom rfl

/-- C5 (confirmed): a GET of the entry-script path with the file present
answers 200 with body = original bytes followed by the bundle, the
original bytes an exact prefix, Content-Length the sum of the two lengths,
Content-Type application/javascript and a permissive CORS header; with the
file missing it answers 404, the only error condition. -/
theorem claim5_theorem (hooks content : List ℕ)
    (superGet : String → HttpResponse) :
    do_GET hooks (some content) superGet "/src/main.js" =
      { status := 200
        headers :=
          [("Content-Type", "application/javascript"),
           ("Content-Length", toString (content.length + hooks.length)),
           ("Access-Control-Allow-Origin", "*")]
        body := content ++ hooks } ∧
    (content ++ hooks).take content.length = content ∧
    (content ++ hooks).length = content.length + hooks.length ∧
    do_GET hooks none superGet "/src/main.js" =
      { status := 404, headers := [], body := [] } := by
  refine ⟨?_, by simp, List.length_append _ _, ?_⟩
  · have hlen : (content ++ hooks).length = content.length + hooks.length :=
      List.length_append _ _
    unfold do_GET
    rw [if_pos rfl]
    show ({ status := 200
            headers :=
              [("Content-Type", "application/javascript"),
               ("Content-Length", toString (content ++ hooks).length),
               ("Access-Control-Allow-Origin", "*")]
            body := content ++ hooks } : HttpResponse) = _
    rw [hlen]
  · unfold do_GET
    rw [if_pos rfl]

/-- C7 (corrected): four of the six read accessors (getState,
getLobbyState, getRoomCode, _getMpStatus) guard their nullable backing
objects and return neutral values, but isPointerLocked and getCanvasData
dereference their backing objects unguarded and throw when they are
absent.  At the pre-initialization state both throw instead of returning
a neutral value. -/
theorem claim7_counterexample :
    isPointerLocked wEmpty =
      Except.error
        { message := "ReferenceError: input is not defined", stack := "" } ∧
    getCanvasData wEmpty =
      Except.error { message := "TypeError: null toDataURL", stack := "" } :=
  ⟨rfl, rfl⟩

/-- C7 (amended): with every backing object absent, getState,
getLobbyState, getRoomCode and _getMpStatus return neutral/null values,
while isPointerLocked and getCanvasData throw. -/
theorem claim7_theorem (w : Win) (hpl : w.player = none)
    (hlb : w.lobbyScreen = none) (hms : w.mpState = none)
    (hin : w.inputSub = none) (hcv : w.canvas = none) :
    (getState w).playerHP = none ∧ (getState w).hasPlayer = false ∧
    getLobbyState w = none ∧ getRoomCode w = none ∧
    (getMpStatus w).localTier = -1 ∧ (getMpStatus w).remoteAlive = false ∧
    (getMpStatus w).playerAlive = false ∧
    isPointerLocked w =
      Except.error
        { message := "ReferenceError: input is not defined", stack := "" } ∧
    getCanvasData w =
      Except.error { message := "TypeError: null toDataURL", stack := "" } := by
  refine ⟨?_, ?_, ?_, ?_, ?_, ?_, ?_, ?_, ?_⟩ <;>
    simp [getState, getLobbyState, getRoomCode, getMpStatus, isPointerLocked,
      getCanvasData, hpl, hlb, hms, hin, hcv]

/-- Witness for C7's amended theorem at the pre-initialization state. -/
theorem claim7_witness :
    (getState wEmpty).playerHP = none ∧ (getState wEmpty).hasPlayer = false ∧
    getLobbyState wEmpty = none ∧ getRoomCode wEmpty = none ∧
    (getMpStatus wEmpty).localTier = -1 ∧
    (getMpStatus wEmpty).remoteAlive = false ∧
    (getMpStatus wEmpty).playerAlive = false ∧
    isPointerLocked wEmpty =
      Except.error
        { message := "ReferenceError: input is not defined", stack := "" } ∧
    getCanvasData wEmpty =
      Except.error { message := "TypeError: null toDataURL", stack := "" } :=
  claim7_theorem wEmpty rfl rfl rfl rfl rfl

lemma frameStep_run (orig : Win → ℝ → Except JsError (Win × FrameFx))
    (dt : ℝ) (w : Win) (p : Player) (m : MpSt) (hp : w.player = some p)
    (ha : w.autoP1Active = true) (hg : w.gameState = GState.mpPlaying)
    (hal : p.alive = true) (hm : w.mpState = some m) :
    frameStep orig dt w = (agentRun w p m dt).1 := by
  unfold frameStep
  rw [updateMultiplayer_run orig w p m dt hp ha hg hal hm]

lemma frameStep_guard (orig : Win → ℝ → Except JsError (Win × FrameFx))
    (dt : ℝ) (w : Win) (h : runGuard w) :
    runGuard (frameStep orig dt w) ∧
    (frameStep orig dt w).autoP1Tick = w.autoP1Tick + 1 := by
  obtain ⟨ha, hg, ⟨p, hp, hal⟩, ⟨m, hm⟩⟩ := h
  rw [frameStep_run orig dt w p m hp ha hg hal hm]
  refine ⟨⟨?_, ?_, ⟨_, agentRun_player w p m dt, ?_⟩, ⟨m, ?_⟩⟩,
    agentRun_tick w p m dt⟩
  · rw [show (agentRun w p m dt).1.autoP1Active = w.autoP1Active from rfl]
    exact ha
  · rw [show (agentRun w p m dt).1.gameState = w.gameState from rfl]
    exact hg
  · rw [predictPlayer_alive]
    exact hal
  · rw [agentRun_mpState]
    exact hm

lemma tickIter (orig : Win → ℝ → Except JsError (Win × FrameFx)) (dt : ℝ)
    (n : ℕ) : ∀ w, runGuard w →
    ((frameStep orig dt)^[n] w).autoP1Tick = w.autoP1Tick + n ∧
      runGuard ((frameStep orig dt)^[n] w) := by
  induction n with
  | zero => intro w h; simpa using h
  | succ k ih =>
      intro w h
      rw [Function.iterate_succ_apply]
      obtain ⟨hg, ht⟩ := frameStep_guard orig dt w h
      obtain ⟨ih1, ih2⟩ := ih (frameStep orig dt w) hg
      refine ⟨?_, ih2⟩
      rw [ih1, ht]
      omega

/-- C8 (amended): the tick resets to 0 on _startAutoP1() and increments
once per frame on every frame in which the agent is active AND actually
runs (match playing, local player present and alive, mpState present);
after 100 such frames _getMpStatus().autoP1Tick is 100. -/
theorem claim8_theorem (orig : Win → ℝ → Except JsError (Win × FrameFx))
    (dt : ℝ) (w : Win) (p : Player) (m : MpSt) (hp : w.player = some p)
    (hal : p.alive = true) (hg : w.gameState = GState.mpPlaying)
    (hm : w.mpState = some m) :
    (startAutoP1 w).autoP1Tick = 0 ∧
    (getMpStatus
      ((frameStep orig dt)^[100] (startAutoP1 w))).autoP1Tick = 100 := by
  have hgd : runGuard (startAutoP1 w) := ⟨rfl, hg, ⟨p, hp, hal⟩, ⟨m, hm⟩⟩
  refine ⟨rfl, ?_⟩
  show ((frameStep orig dt)^[100] (startAutoP1 w)).autoP1Tick = 100
  rw [(tickIter orig dt 100 (startAutoP1 w) hgd).1,
    show (startAutoP1 w).autoP1Tick = 0 from rfl]

/-- Witness for C8's amended theorem at the concrete state `w1`. -/
theorem claim8_witness :
    (startAutoP1 w1).autoP1Tick = 0 ∧
    (getMpStatus
      ((frameStep origNoop 1)^[100] (startAutoP1 w1))).autoP1Tick = 100 :=
  claim8_theorem origNoop 1 w1 p0 (mkM (some rpNear)) rfl rfl rfl rfl

/-- C8 (corrected): a frame on which the agent is active but does NOT run
(here: the local player is dead) leaves the tick unchanged, so "increments
once per frame while active" fails as stated; at `wDead` the agent is
active, one frame executes, and the reported tick is still 0, not 1. -/
theorem claim8_counterexample :
    wDead.autoP1Active = true ∧ wDead.autoP1Tick = 0 ∧
    (getMpStatus (frameStep origNoop 1 wDead)).autoP1Tick = 0 ∧
    (0 : ℕ) ≠ wDead.autoP1Tick + 1 := by
  have hupd : updateMultiplayer origNoop wDead 1 =
      Except.ok (wDead, { sent := none, weaponSystemInput := none }) := by
    unfold updateMultiplayer
    show (if wDead.autoP1Active = true ∧ wDead.gameState = GState.mpPlaying ∧
        pDead.alive = true then _ else origNoop wDead 1) = _
    rw [if_neg ?_]
    · rfl
    · intro hand
      exact absurd hand.2.2 (by decide)
  refine ⟨rfl, rfl, ?_, by decide⟩
  show (frameStep origNoop 1 wDead).autoP1Tick = 0
  unfold frameStep
  rw [hupd]
  rfl

/-- C9 (corrected): _startAutoP1 sets the active flag and resets the tick,
_stopAutoP1 only clears the active flag — it does NOT reset the tick: at a
state with tick 5, stopping leaves the tick at 5. -/
theorem claim9_counterexample :
    (stopAutoP1 { w1 with autoP1Tick := 5 }).autoP1Tick = 5 ∧ (5 : ℕ) ≠ 0 :=
  ⟨rfl, by decide⟩

/-- C9 (amended): _startAutoP1 sets active := true and tick := 0;
_stopAutoP1 sets active := false and leaves the tick unchanged; both are
idempotent. -/
theorem claim9_theorem (w : Win) :
    (startAutoP1 w).autoP1Active = true ∧ (startAutoP1 w).autoP1Tick = 0 ∧
    (stopAutoP1 w).autoP1Active = false ∧
    (stopAutoP1 w).autoP1Tick = w.autoP1Tick ∧
    startAutoP1 (startAutoP1 w) = startAutoP1 w ∧
    stopAutoP1 (stopAutoP1 w) = stopAutoP1 w :=
  ⟨rfl, rfl, rfl, rfl, rfl, rfl⟩

end RetroFury
